import Mathlib

/-!
# Verification of the `mpx-secrets-audit` core

A shallow embedding of the status-classification engine (`lib/status.js`),
the credential registry (`lib/secrets.js`) and the Markdown report renderer
(`lib/reporters.js`), together with proofs about the spec's testable
properties.

Modelling conventions:
* A JavaScript instant is measured in **days** since the Unix epoch, as a
  rational number (`ℚ`); the source divides millisecond differences by
  `1000*60*60*24`, which is exactly the unit change performed here.
* A JavaScript number that may be `NaN` is `Option ℚ` with `none` playing
  the role of `NaN`: every `<`/`>` comparison involving `none` is `false`,
  exactly as for `NaN`.
* `new Date(s)` on a stored `YYYY-MM-DD` string yields UTC midnight of that
  calendar day, i.e. an exact whole number of epoch days; on a string not of
  that valid calendar-date shape it yields an invalid date (`NaN`), modelled
  as `none`.
* Fields that are `null`/`undefined`/absent in JS are `Option` values, and
  truthiness of a string field is "present and non-empty".
-/

namespace SecretsAudit

/-- The four status values produced by the engine. -/
inductive Status where
  | healthy
  | warning
  | critical
  | expired
deriving DecidableEq, Repr

/-- JS truthiness of a possibly-absent string (absent, `null` and `""` are
falsy). -/
def truthyStr : Option String → Bool
  | none => false
  | some s => s ≠ ""

/-- JS truthiness of a possibly-absent number (absent/`undefined` and `0`
are falsy). -/
def truthyNum : Option ℚ → Bool
  | none => false
  | some q => q ≠ 0

/-- JS `<` on numbers that may be `NaN` (`none`): any comparison involving
`NaN` is false. -/
def jsLt : Option ℚ → Option ℚ → Bool
  | some a, some b => a < b
  | _, _ => false

/-- Subtraction on `ℚ`, written out on numerators and denominators so that
concrete instances reduce in the kernel (the core `Rat.sub` is irreducible). -/
def qSub (a b : ℚ) : ℚ := mkRat (a.num * b.den - b.num * a.den) (a.den * b.den)

/-- Multiplication on `ℚ`, written out on numerators and denominators so
that concrete instances reduce in the kernel. -/
def qMul (a b : ℚ) : ℚ := mkRat (a.num * b.num) (a.den * b.den)

/-- JS subtraction on numbers that may be `NaN`; `NaN` propagates. -/
def jsSub : Option ℚ → Option ℚ → Option ℚ
  | some a, some b => some (qSub a b)
  | _, _ => none

/-- Ceiling of a rational, computed directly on the numerator and
denominator so that concrete instances reduce in the kernel. -/
def ratCeil (q : ℚ) : ℚ := ((-((-q.num) / (q.den : ℤ)) : ℤ) : ℚ)

/-- JS `Math.ceil` (already in day units); `NaN` propagates. -/
def jsCeil : Option ℚ → Option ℚ
  | some q => some (ratCeil q)
  | none => none

/-- Leap-year test of the proleptic Gregorian calendar. -/
def isLeap (y : ℕ) : Bool :=
  (y % 4 == 0 && y % 100 != 0) || y % 400 == 0

/-- Number of days in month `m` (1–12) of year `y`. -/
def daysInMonth (y m : ℕ) : ℕ :=
  if m = 2 then (if isLeap y then 29 else 28)
  else if m = 4 ∨ m = 6 ∨ m = 9 ∨ m = 11 then 30
  else 31

/-- Days from the Unix epoch (1970-01-01) to the civil date `y-m-d`,
for `y ≤ 9999`, `1 ≤ m ≤ 12` (Gregorian civil-from-days algorithm, shifted
by 400 years so the intermediate arithmetic stays in `ℕ`). -/
def daysFromCivil (y m d : ℕ) : ℤ :=
  let yy := y + 400
  let ys := if m ≤ 2 then yy - 1 else yy
  let era := ys / 400
  let yoe := ys % 400
  let mp := (m + 9) % 12
  let doy := (153 * mp + 2) / 5 + d - 1
  let doe := yoe * 365 + yoe / 4 - yoe / 100 + doy
  (era * 146097 + doe : ℤ) - 719468 - 146097

/-- Decimal digit value of a character. -/
def digitVal (c : Char) : ℕ := c.toNat - '0'.toNat

/-- The shape test of the `/^\d{4}-\d{2}-\d{2}$/` regular expression. -/
def dateShape (s : String) : Bool :=
  match s.data with
  | [a, b, c, d, h1, e, f, h2, g, i] =>
      a.isDigit && b.isDigit && c.isDigit && d.isDigit && h1 == '-' &&
      e.isDigit && f.isDigit && h2 == '-' && g.isDigit && i.isDigit
  | _ => false

/-- Extract the `(year, month, day)` fields of a string of the shape
`YYYY-MM-DD`. -/
def ymdOf (s : String) : ℕ × ℕ × ℕ :=
  match s.data with
  | [a, b, c, d, _, e, f, _, g, i] =>
      (digitVal a * 1000 + digitVal b * 100 + digitVal c * 10 + digitVal d,
       digitVal e * 10 + digitVal f,
       digitVal g * 10 + digitVal i)
  | _ => (0, 0, 0)

/-- Whether a `YYYY-MM-DD`-shaped string denotes a real calendar date. -/
def calendarOk (s : String) : Bool :=
  let (y, m, d) := ymdOf s
  1 ≤ m && m ≤ 12 && 1 ≤ d && d ≤ daysInMonth y m

/-- Parsing `new Date(s)` on a stored date string: a valid `YYYY-MM-DD` calendar
date parses to UTC midnight of that day (a whole number of epoch days);
anything else is an invalid date (`NaN`, modelled `none`). -/
def jsParseDate (s : String) : Option ℚ :=
  if dateShape s && calendarOk s then
    let (y, m, d) := ymdOf s
    some ((daysFromCivil y m d : ℤ) : ℚ)
  else none

/-- Parsing `new Date(x)` applied to a possibly-absent stored field. -/
def jsDate : Option String → Option ℚ
  | none => none
  | some s => jsParseDate s

/-- A stored tracked-credential record, as persisted in the config file
(date fields are strings; `status` is the cached classification). -/
structure Secret where
  name : String
  provider : String
  type : String
  createdAt : Option String
  expiresAt : Option String
  lastRotated : Option String
  rotationPolicy : Option ℚ
  notes : String
  status : Status
deriving DecidableEq, Repr

/-- The rotation-policy half of `calculateStatus` (`lib/status.js` lines
25–40): the code the expiry block falls through to. -/
def rotationStatus (now : ℚ) (secret : Secret) : Status :=
  if truthyNum secret.rotationPolicy && truthyStr secret.lastRotated then
    let lastRotatedDate := jsDate secret.lastRotated
    let daysSinceRotation := jsCeil (jsSub (some now) lastRotatedDate)
    if jsLt secret.rotationPolicy daysSinceRotation then
      Status.critical
    else
      let warningThreshold := secret.rotationPolicy.map (qMul · (mkRat 3 4))
      if jsLt warningThreshold daysSinceRotation then
        Status.warning
      else
        Status.healthy
  else
    Status.healthy

/-- Function `calculateStatus` (`lib/status.js` lines 4–41): expiry rules first
(expired / <7 days critical / <30 days warning), then rotation-policy
rules, else healthy. -/
def calculateStatus (now : ℚ) (secret : Secret) : Status :=
  if truthyStr secret.expiresAt then
    let expiryDate := jsDate secret.expiresAt
    if jsLt expiryDate (some now) then
      Status.expired
    else
      let daysUntilExpiry := jsCeil (jsSub expiryDate (some now))
      if jsLt daysUntilExpiry (some 7) then
        Status.critical
      else if jsLt daysUntilExpiry (some 30) then
        Status.warning
      else
        rotationStatus now secret
  else
    rotationStatus now secret

/-! ## Registry (`lib/secrets.js`)

Each operation loads the persisted config, works on it and saves it back
only if it did not throw. An operation is modelled as a function from the
loaded `Config` to the pair of the config that ends up persisted and the
operation's result; a thrown error leaves the persisted config untouched,
so the error branches return the input config unchanged. -/

/-- The persisted registry snapshot: `{version, tier, secrets}` (the
version string plays no role in any operation and is omitted). -/
structure Config where
  tier : String
  secrets : List Secret
deriving DecidableEq, Repr

/-- The errors thrown by the registry operations, keyed by the messages in
`lib/secrets.js`. -/
inductive Err where
  /-- Message "Free tier limit reached (10 secrets). …" -/
  | tierLimit
  /-- Message "Secret with name \"…\" already exists" -/
  | duplicateName (name : String)
  /-- Message "Secret name is required" -/
  | nameRequired
  /-- Message "Invalid date format for …. Use YYYY-MM-DD." -/
  | badDateFormat (field val : String)
  /-- Message "Invalid date for …. Use a valid YYYY-MM-DD date." -/
  | badDateValue (field val : String)
  /-- Message "Invalid date for …. Month or day out of range." -/
  | badDateRange (field val : String)
  /-- Message "Secret \"…\" not found" -/
  | notFound (name : String)
deriving DecidableEq, Repr

/-- The creation payload handed to `addSecret` (fields may be absent). -/
structure SecretData where
  name : Option String
  provider : Option String
  type : Option String
  createdAt : Option String
  expiresAt : Option String
  lastRotated : Option String
  rotationPolicy : Option ℚ
  notes : Option String
deriving DecidableEq, Repr

/-- JS `a || d` for a possibly-absent string `a` and string default. -/
def jsOrStr : Option String → String → String
  | some s, d => if s = "" then d else s
  | none, d => d

/-- JS `a || null` for a possibly-absent string. -/
def jsOrNull : Option String → Option String
  | some s => if s = "" then none else some s
  | none => none

/-- JS `a || d` for a possibly-absent number and number default (`0` is
falsy, so a supplied `0` falls back to the default). -/
def jsOrNum : Option ℚ → ℚ → ℚ
  | some q, d => if q = 0 then d else q
  | none, d => d

/-- Validation of one supplied date field (`lib/secrets.js` lines 28–46):
skip falsy values; reject strings that fail the `\d{4}-\d{2}-\d{2}` shape;
then reject strings where `new Date(val + 'T00:00:00')` is invalid, i.e.
where the fields are not a real calendar date; finally reject strings
where `new Date(y, m-1, d)` does not read back as `y-m-d` — the roll-over
check, which (beyond the dates already caught by the previous step) also
rejects years 0–99, since the `Date(year, …)` constructor maps them to
1900–1999. -/
def validateDateField (field : String) (v : Option String) : Option Err :=
  match v with
  | none => none
  | some val =>
    if val = "" then none
    else if ¬ dateShape val then some (Err.badDateFormat field val)
    else if ¬ calendarOk val then some (Err.badDateValue field val)
    else if (ymdOf val).1 < 100 then some (Err.badDateRange field val)
    else none

/-- The `for (const field of ['createdAt', 'expiresAt', 'lastRotated'])`
validation loop: first failing field wins. -/
def validateDates (d : SecretData) : Option Err :=
  (validateDateField "createdAt" d.createdAt).orElse fun _ =>
    (validateDateField "expiresAt" d.expiresAt).orElse fun _ =>
      validateDateField "lastRotated" d.lastRotated

/-- Operation `addSecret` (`lib/secrets.js` lines 7–67). `todayStr` is today's
`YYYY-MM-DD` string (`new Date().toISOString().split('T')[0]`) and `now`
the current instant used by `calculateStatus`. -/
def addSecret (todayStr : String) (now : ℚ) (config : Config)
    (secretData : SecretData) : Config × Except Err Secret :=
  if config.tier = "free" ∧ 10 ≤ config.secrets.length then
    (config, Except.error Err.tierLimit)
  else if config.secrets.any (fun s => secretData.name == some s.name) then
    (config, Except.error (Err.duplicateName (secretData.name.getD "")))
  else if ¬ truthyStr secretData.name then
    (config, Except.error Err.nameRequired)
  else
    match validateDates secretData with
    | some e => (config, Except.error e)
    | none =>
      let base : Secret :=
        { name := secretData.name.getD ""
          provider := jsOrStr secretData.provider "unknown"
          type := jsOrStr secretData.type "api_key"
          createdAt := some (jsOrStr secretData.createdAt todayStr)
          expiresAt := jsOrNull secretData.expiresAt
          lastRotated :=
            some (jsOrStr secretData.lastRotated
              (jsOrStr secretData.createdAt todayStr))
          rotationPolicy := some (jsOrNum secretData.rotationPolicy 90)
          notes := jsOrStr secretData.notes ""
          status := Status.healthy }
      let secret := { base with status := calculateStatus now base }
      ({ config with secrets := config.secrets ++ [secret] },
       Except.ok secret)

/-- Operation `removeSecret` (`lib/secrets.js` lines 72–84): `findIndex` + `splice`
remove the first record with the given name. -/
def removeSecret (name : String) (config : Config) :
    Config × Except Err Secret :=
  match config.secrets.find? (fun s => s.name == name) with
  | none => (config, Except.error (Err.notFound name))
  | some sec =>
      ({ config with secrets := config.secrets.eraseP (fun s => s.name == name) },
       Except.ok sec)

/-- Recompute and store the status of one record, as the read paths do. -/
def refreshSecret (now : ℚ) (s : Secret) : Secret :=
  { s with status := calculateStatus now s }

/-- Operation `listSecrets` (`lib/secrets.js` lines 89–98): recompute every status,
return the records. -/
def listSecrets (now : ℚ) (config : Config) : List Secret :=
  config.secrets.map (refreshSecret now)

/-- The in-memory config after `listSecrets` has refreshed every status
(the function mutates the loaded records in place and does not save). -/
def refreshConfig (now : ℚ) (config : Config) : Config :=
  { config with secrets := listSecrets now config }

/-- Operation `getSecret` (`lib/secrets.js` lines 103–113): first record with the
name, with freshly recomputed status. -/
def getSecret (now : ℚ) (name : String) (config : Config) :
    Except Err Secret :=
  match config.secrets.find? (fun s => s.name == name) with
  | none => Except.error (Err.notFound name)
  | some s => Except.ok (refreshSecret now s)

/-- Replace the first element satisfying `p` by its image under `f`
(JS `find` returns a reference that is then mutated in place). -/
def modifyFirst (p : Secret → Bool) (f : Secret → Secret) :
    List Secret → List Secret
  | [] => []
  | s :: rest => if p s then f s :: rest else s :: modifyFirst p f rest

/-- Operation `rotateSecret` (`lib/secrets.js` lines 118–131): set `lastRotated` of
the first record with the name to today, recompute its status, save. -/
def rotateSecret (todayStr : String) (now : ℚ) (name : String)
    (config : Config) : Config × Except Err Secret :=
  match config.secrets.find? (fun s => s.name == name) with
  | none => (config, Except.error (Err.notFound name))
  | some s =>
      let rot := fun (t : Secret) =>
        refreshSecret now { t with lastRotated := some todayStr }
      ({ config with secrets := modifyFirst (fun t => t.name == name) rot config.secrets },
       Except.ok (rot s))

/-- An `updates` object for `updateSecret`: a field that is `some v` is an
own property of the object (and overwrites the record's field, `null`
values included), a field that is `none` is absent. -/
structure Updates where
  name : Option String := none
  provider : Option String := none
  type : Option String := none
  createdAt : Option (Option String) := none
  expiresAt : Option (Option String) := none
  lastRotated : Option (Option String) := none
  rotationPolicy : Option (Option ℚ) := none
  notes : Option String := none
  status : Option Status := none
deriving DecidableEq, Repr

/-- Merge `Object.assign(secret, updates)`: every supplied field overwrites the
record's field, last write wins. -/
def assignUpdates (s : Secret) (u : Updates) : Secret :=
  { name := u.name.getD s.name
    provider := u.provider.getD s.provider
    type := u.type.getD s.type
    createdAt := u.createdAt.getD s.createdAt
    expiresAt := u.expiresAt.getD s.expiresAt
    lastRotated := u.lastRotated.getD s.lastRotated
    rotationPolicy := u.rotationPolicy.getD s.rotationPolicy
    notes := u.notes.getD s.notes
    status := u.status.getD s.status }

/-- Operation `updateSecret` (`lib/secrets.js` lines 136–149): merge the supplied
fields into the first record with the name, recompute its status, save.
No validation and no duplicate-name check is performed on the merge. -/
def updateSecret (now : ℚ) (name : String) (updates : Updates)
    (config : Config) : Config × Except Err Secret :=
  match config.secrets.find? (fun s => s.name == name) with
  | none => (config, Except.error (Err.notFound name))
  | some s =>
      let upd := fun (t : Secret) =>
        refreshSecret now (assignUpdates t updates)
      ({ config with secrets := modifyFirst (fun t => t.name == name) upd config.secrets },
       Except.ok (upd s))

/-! ## Derived metrics and messages (`lib/status.js` lines 46–127)

`calculateAge` and `daysUntilExpiry` return `null` or a number that may be
`NaN`, modelled as `Option (Option ℚ)`: `none` is `null`, `some none` is
`NaN`, `some (some q)` is the number `q`. In a JS relational comparison
`null` coerces to `0` while `NaN` compares false. -/

/-- Coercion of a nullable number to a number for arithmetic/relational
use: `null` becomes `0`, `NaN` stays `NaN`. -/
def jsValOfNullable : Option (Option ℚ) → Option ℚ
  | none => some 0
  | some v => v

/-- JS truthiness of a nullable number (`null`, `NaN` and `0` are falsy). -/
def truthyNullable : Option (Option ℚ) → Bool
  | some (some q) => q ≠ 0
  | _ => false

/-- Rendering of a JS number in a template string. Integer values print as
their integer decimal form; the fractional and `NaN` renderings only name
the value and are never inspected by any claim. -/
def jsNumToString : Option ℚ → String
  | none => "NaN"
  | some q => if q.den = 1 then toString q.num else toString q

/-- Absolute value `Math.abs` of a nullable number (`Math.abs(null)` is `0`). -/
def jsAbs : Option (Option ℚ) → Option ℚ
  | none => some 0
  | some none => none
  | some (some q) => some |q|

/-- Function `calculateAge` (`lib/status.js` lines 64–77): reference date is
`lastRotated` if truthy, else `createdAt` if truthy, else `null` (only a
falsy field yields `null`; an unparseable date yields `NaN`, since an
Invalid Date object is truthy). -/
def calculateAge (now : ℚ) (secret : Secret) : Option (Option ℚ) :=
  if truthyStr secret.lastRotated then
    some (jsCeil (jsSub (some now) (jsDate secret.lastRotated)))
  else if truthyStr secret.createdAt then
    some (jsCeil (jsSub (some now) (jsDate secret.createdAt)))
  else
    none

/-- Function `daysUntilExpiry` (`lib/status.js` lines 82–92). -/
def daysUntilExpiry (now : ℚ) (secret : Secret) : Option (Option ℚ) :=
  if ¬ truthyStr secret.expiresAt then none
  else some (jsCeil (jsSub (jsDate secret.expiresAt) (some now)))

/-- Function `getStatusEmoji` (`lib/status.js` lines 46–59); the default branch is
unreachable for the four status values. -/
def getStatusEmoji : Status → String
  | Status.healthy => "🟢"
  | Status.warning => "🟡"
  | Status.critical => "🔴"
  | Status.expired => "⛔"

/-- The stored status string of a record. -/
def statusName : Status → String
  | Status.healthy => "healthy"
  | Status.warning => "warning"
  | Status.critical => "critical"
  | Status.expired => "expired"

/-- Rendering of `status.toUpperCase()` on the four status strings. -/
def statusUpper : Status → String
  | Status.healthy => "HEALTHY"
  | Status.warning => "WARNING"
  | Status.critical => "CRITICAL"
  | Status.expired => "EXPIRED"

/-- Function `getStatusMessage` (`lib/status.js` lines 97–127). -/
def getStatusMessage (now : ℚ) (secret : Secret) : String :=
  let status := calculateStatus now secret
  let age := calculateAge now secret
  let daysToExpiry := daysUntilExpiry now secret
  match status with
  | Status.expired =>
      "Expired " ++ jsNumToString (jsAbs daysToExpiry) ++ " days ago"
  | Status.critical =>
      if daysToExpiry.isSome && jsLt daysToExpiry.join (some 7) then
        "Expires in " ++ jsNumToString daysToExpiry.join ++ " day" ++
          (if daysToExpiry.join == some 1 then "" else "s")
      else if truthyNum secret.rotationPolicy &&
          jsLt secret.rotationPolicy (jsValOfNullable age) then
        "Past rotation policy by " ++
          jsNumToString (jsSub (jsValOfNullable age) secret.rotationPolicy) ++
          " days"
      else
        "Critical"
  | Status.warning =>
      if daysToExpiry.isSome && jsLt daysToExpiry.join (some 30) then
        "Expires in " ++ jsNumToString daysToExpiry.join ++ " days"
      else if truthyNum secret.rotationPolicy && truthyNullable age then
        jsNumToString (jsSub secret.rotationPolicy (jsValOfNullable age)) ++
          " days until rotation due"
      else
        "Warning"
  | Status.healthy => "Healthy"

/-! ## Markdown report (`lib/reporters.js` lines 93–170)

The renderer pushes lines onto an array and joins them with newlines; the
array is modelled as a `List String`. `genStr` stands for the
`new Date().toLocaleString()` text of the generation-time line. -/

/-- Count of records whose stored status equals `st`. -/
def countStatus (st : Status) (secrets : List Secret) : ℕ :=
  (secrets.filter (fun s => s.status == st)).length

/-- The summary bullet block (`lib/reporters.js` lines 104–120). -/
def mdSummaryLines (secrets : List Secret) : List String :=
  ["## Summary", "",
   "- **Total**: " ++ toString secrets.length,
   "- 🟢 **Healthy**: " ++ toString (countStatus Status.healthy secrets),
   "- 🟡 **Warning**: " ++ toString (countStatus Status.warning secrets),
   "- 🔴 **Critical**: " ++ toString (countStatus Status.critical secrets),
   "- ⛔ **Expired**: " ++ toString (countStatus Status.expired secrets),
   ""]

/-- The cells of one row of the secrets table, after its leading `| `
(`lib/reporters.js` lines 128–138); `calculateAge(secret) || 'N/A'` turns
a falsy age (`null`, `NaN` or `0`) into `N/A`. -/
def mdRowRest (now : ℚ) (secret : Secret) : String :=
  let ageCell :=
    if truthyNullable (calculateAge now secret) then
      jsNumToString (jsValOfNullable (calculateAge now secret))
    else "N/A"
  let expiry := daysUntilExpiry now secret
  let expiryCell :=
    if expiry.isSome then jsNumToString expiry.join ++ " days" else "N/A"
  let rotationCell :=
    if truthyNum secret.rotationPolicy then
      jsNumToString secret.rotationPolicy ++ " days"
    else "N/A"
  getStatusEmoji secret.status ++ " " ++ statusName secret.status ++
    " | " ++ secret.name ++ " | " ++ secret.provider ++ " | " ++ ageCell ++
    " | " ++ expiryCell ++ " | " ++ rotationCell ++ " |"

/-- One row of the secrets table. -/
def mdRowLine (now : ℚ) (secret : Secret) : String :=
  "| " ++ mdRowRest now secret

/-- The per-record block of the Action Required section
(`lib/reporters.js` lines 151–166). -/
def mdDetailLines (now : ℚ) (secret : Secret) : List String :=
  ["### " ++ getStatusEmoji secret.status ++ " " ++ secret.name, "",
   "- **Status**: " ++ statusUpper secret.status,
   "- **Message**: " ++ getStatusMessage now secret,
   "- **Provider**: " ++ secret.provider] ++
  (if secret.notes ≠ "" then ["- **Notes**: " ++ secret.notes] else []) ++
  [""]

/-- Every line pushed before the conditional Action Required block
(`lib/reporters.js` lines 98–140). -/
def mdPrefixLines (genStr : String) (now : ℚ) (secrets : List Secret) :
    List String :=
  ["# Secrets Audit Report", "", "Generated: " ++ genStr, ""] ++
  mdSummaryLines secrets ++
  ["## Secrets", "",
   "| Status | Name | Provider | Age (days) | Expiry | Rotation Policy |",
   "|--------|------|----------|------------|--------|-----------------|"] ++
  secrets.map (mdRowLine now) ++
  [""]

/-- The full line array of the Markdown report for a non-empty record list
(`lib/reporters.js` lines 98–167): the prefix block, then — only when the
warning/critical/expired summary counters are not all zero — the Action
Required section. -/
def markdownLines (genStr : String) (now : ℚ) (secrets : List Secret) :
    List String :=
  mdPrefixLines genStr now secrets ++
  (if countStatus Status.warning secrets > 0 ∨
      countStatus Status.critical secrets > 0 ∨
      countStatus Status.expired secrets > 0 then
    ["## Action Required", ""] ++
      (secrets.filter (fun s => s.status != Status.healthy)).flatMap
        (mdDetailLines now)
  else [])

/-- Function `generateMarkdownReport` (`lib/reporters.js` lines 93–170). -/
def generateMarkdownReport (genStr : String) (now : ℚ)
    (secrets : List Secret) : String :=
  if secrets.length = 0 then "# Secrets Audit Report\n\nNo secrets tracked yet."
  else String.intercalate "\n" (markdownLines genStr now secrets)

/-! ## Concrete inputs used by the witnesses and counterexamples

Epoch-day values: `2024-01-01` is day 19723, `2025-01-01` is day 20089. -/

/-- A record that expires on `2025-01-01` and whose 30-day rotation policy
has long been breached (rotated `2024-01-01`). -/
def wExpiring : Secret :=
  { name := "stripe-key", provider := "stripe", type := "api_key",
    createdAt := some "2024-01-01", expiresAt := some "2025-01-01",
    lastRotated := some "2024-01-01", rotationPolicy := some 30,
    notes := "", status := Status.healthy }

/-- A record with no expiry, a 90-day rotation policy, last rotated on
`2025-01-01`. -/
def wRotOnly : Secret :=
  { name := "aws-key", provider := "aws", type := "api_key",
    createdAt := some "2025-01-01", expiresAt := none,
    lastRotated := some "2025-01-01", rotationPolicy := some 90,
    notes := "", status := Status.healthy }

/-- A record whose stored `expiresAt` is not a parseable date. -/
def wMangled : Secret :=
  { name := "gh-token", provider := "github", type := "token",
    createdAt := some "2025-01-01", expiresAt := some "not-a-date",
    lastRotated := some "2025-01-01", rotationPolicy := some 90,
    notes := "", status := Status.healthy }

/-- An empty free-tier registry. -/
def wEmptyConfig : Config := { tier := "free", secrets := [] }

/-- A free-tier registry already holding ten records. -/
def wFullConfig : Config :=
  { tier := "free",
    secrets := (List.range 10).map fun i =>
      { name := "key-" ++ toString i, provider := "test", type := "api_key",
        createdAt := some "2025-01-01", expiresAt := none,
        lastRotated := some "2025-01-01", rotationPolicy := some 90,
        notes := "", status := Status.healthy } }

/-- A registry holding two records named `A` and `B`. -/
def wPairConfig : Config :=
  { tier := "free",
    secrets :=
      [{ name := "A", provider := "test", type := "api_key",
         createdAt := some "2025-01-01", expiresAt := none,
         lastRotated := some "2025-01-01", rotationPolicy := some 90,
         notes := "", status := Status.healthy },
       { name := "B", provider := "test", type := "api_key",
         createdAt := some "2025-01-01", expiresAt := none,
         lastRotated := some "2025-01-01", rotationPolicy := some 90,
         notes := "", status := Status.healthy }] }

/-- An update payload that renames a record to `B`. -/
def wRenameToB : Updates := { name := some "B" }

/-- A creation payload with only a name. -/
def wPlainData : SecretData :=
  { name := some "new-key", provider := some "test", type := none,
    createdAt := none, expiresAt := none, lastRotated := none,
    rotationPolicy := none, notes := none }

/-- A creation payload carrying a negative rotation policy. -/
def wNegPolicyData : SecretData :=
  { wPlainData with rotationPolicy := some (-5) }

/-- The record produced by adding `wPlainData` to the empty registry on
`2025-06-01` (day 20240). -/
def wAddedSecret : Secret :=
  { name := "new-key", provider := "test", type := "api_key",
    createdAt := some "2025-06-01", expiresAt := none,
    lastRotated := some "2025-06-01", rotationPolicy := some 90,
    notes := "", status := Status.healthy }

/-- A creation payload that collides with a stored name and carries a
malformed date. -/
def wBadData : SecretData :=
  { name := some "key-0", provider := none, type := none,
    createdAt := some "01/02/2025", expiresAt := none, lastRotated := none,
    rotationPolicy := some 0, notes := none }

/-! ## General lemmas about the embedding -/

/-- Lemma: `qSub` agrees with subtraction on `ℚ`. -/
theorem qSub_eq (a b : ℚ) : qSub a b = a - b := (Rat.sub_def' a b).symm

/-- Lemma: `qMul` agrees with multiplication on `ℚ`. -/
theorem qMul_eq (a b : ℚ) : qMul a b = a * b := by
  rw [qMul, Rat.mul_def, Rat.normalize_eq_mkRat]

/-- Lemma: `ratCeil` agrees with Mathlib's ceiling. -/
theorem ratCeil_eq (q : ℚ) : ratCeil q = (⌈q⌉ : ℚ) := by
  have h1 : ⌈q⌉ = -⌊-q⌋ := by rw [← Int.ceil_neg, neg_neg]
  have h2 : ⌊-q⌋ = (-q).num / ((-q).den : ℤ) := Rat.floor_def
  have h3 : (-q).num = -q.num := Rat.neg_num q
  have h4 : (-q).den = q.den := Rat.neg_den q
  rw [ratCeil, h1, h2, h3, h4]

/-- A string that parses as a date is truthy. -/
theorem jsParseDate_ne_empty {s : String} {e : ℚ}
    (h : jsParseDate s = some e) : s ≠ "" := by
  intro hs; subst hs; exact Option.noConfusion h

/-- Evaluation of `calculateStatus` on a record whose `expiresAt` parses to the instant
`e`, written as the source's decision chain over exact day arithmetic. -/
theorem calculateStatus_parsed (now e : ℚ) (secret : Secret) (s : String)
    (hexp : secret.expiresAt = some s) (hparse : jsParseDate s = some e) :
    calculateStatus now secret =
      if e < now then Status.expired
      else if ratCeil (qSub e now) < 7 then Status.critical
      else if ratCeil (qSub e now) < 30 then Status.warning
      else rotationStatus now secret := by
  have hne : s ≠ "" := jsParseDate_ne_empty hparse
  by_cases h1 : e < now <;> by_cases h2 : ratCeil (qSub e now) < 7 <;>
    by_cases h3 : ratCeil (qSub e now) < 30 <;>
    first
      | exact absurd (h2.trans (by norm_num)) h3
      | simp [calculateStatus, hexp, truthyStr, hne, jsDate, hparse, jsLt,
          jsSub, jsCeil, h1, h2, h3]

/-- Evaluation of `calculateStatus` on a record with a falsy `expiresAt` is the rotation
evaluation. -/
theorem calculateStatus_noExpiry (now : ℚ) (secret : Secret)
    (h : truthyStr secret.expiresAt = false) :
    calculateStatus now secret = rotationStatus now secret := by
  simp [calculateStatus, h]

/-- Function `rotationStatus` reads neither `expiresAt` nor the cached status. -/
theorem rotationStatus_irrel (now : ℚ) (secret : Secret)
    (x : Option String) (st : Status) :
    rotationStatus now { secret with expiresAt := x, status := st } =
      rotationStatus now secret := rfl

/-- The characters of a concatenation. -/
theorem data_append (a b : String) : (a ++ b).data = a.data ++ b.data := by
  cases a
  cases b
  rfl

/-- Two strings whose first characters differ are different, whatever is
appended to the first. -/
theorem append_ne_of_head (a b t : String) (c c' : Char)
    (h1 : a.data.head? = some c) (h2 : t.data.head? = some c')
    (hcc : c ≠ c') : a ++ b ≠ t := by
  intro h
  apply hcc
  have hd : (a ++ b).data = a.data ++ b.data := data_append a b
  cases ha : a.data with
  | nil =>
    rw [ha] at h1
    exact Option.noConfusion h1
  | cons x xs =>
    rw [ha] at h1
    have hx : x = c := by
      simpa using h1
    have ht : t.data = x :: (xs ++ b.data) := by
      rw [← h, hd, ha]
      rfl
    rw [ht] at h2
    have hx' : x = c' := by
      simpa using h2
    rw [← hx, hx']

/-- A positive per-status counter means some record carries that status. -/
theorem countStatus_pos (st : Status) (secrets : List Secret) :
    0 < countStatus st secrets ↔ ∃ s ∈ secrets, s.status = st := by
  simp [countStatus, List.length_pos_iff_exists_mem, List.mem_filter]

/-- The renderer's numeric guard (some warning/critical/expired counter
positive) says exactly that a non-healthy record exists. -/
theorem mdGuard_iff (secrets : List Secret) :
    (countStatus Status.warning secrets > 0 ∨
      countStatus Status.critical secrets > 0 ∨
      countStatus Status.expired secrets > 0) ↔
    ∃ s ∈ secrets, s.status ≠ Status.healthy := by
  simp only [gt_iff_lt, countStatus_pos]
  constructor
  · rintro (⟨s, hs, h⟩ | ⟨s, hs, h⟩ | ⟨s, hs, h⟩) <;>
      exact ⟨s, hs, by rw [h]; decide⟩
  · rintro ⟨s, hs, h⟩
    cases hst : s.status with
    | healthy => exact absurd hst h
    | warning => exact Or.inl ⟨s, hs, hst⟩
    | critical => exact Or.inr (Or.inl ⟨s, hs, hst⟩)
    | expired => exact Or.inr (Or.inr ⟨s, hs, hst⟩)

/-- A table row never reads `## Action Required`: it starts with `| `. -/
theorem mdRowLine_ne_ar (now : ℚ) (s : Secret) :
    mdRowLine now s ≠ "## Action Required" :=
  append_ne_of_head "| " (mdRowRest now s) "## Action Required" '|' '#'
    rfl rfl (by decide)

/-- Heading `## Action Required` never occurs among the lines pushed before the
conditional block. -/
theorem arHeadingAbsent (genStr : String) (now : ℚ)
    (secrets : List Secret) :
    "## Action Required" ∉ mdPrefixLines genStr now secrets := by
  intro hmem
  simp [mdPrefixLines, mdSummaryLines] at hmem
  rcases hmem with h | h | h | h | h | h | ⟨s, _, h⟩
  · exact append_ne_of_head "Generated: " genStr "## Action Required"
      'G' '#' rfl rfl (by decide) h.symm
  · exact append_ne_of_head "- **Total**: " _ "## Action Required"
      '-' '#' rfl rfl (by decide) h.symm
  · exact append_ne_of_head "- 🟢 **Healthy**: " _ "## Action Required"
      '-' '#' rfl rfl (by decide) h.symm
  · exact append_ne_of_head "- 🟡 **Warning**: " _ "## Action Required"
      '-' '#' rfl rfl (by decide) h.symm
  · exact append_ne_of_head "- 🔴 **Critical**: " _ "## Action Required"
      '-' '#' rfl rfl (by decide) h.symm
  · exact append_ne_of_head "- ⛔ **Expired**: " _ "## Action Required"
      '-' '#' rfl rfl (by decide) h.symm
  · exact mdRowLine_ne_ar now s h

/-! ## The claims -/

/-- C1: a record whose `expiresAt` is in the past is `expired` regardless
of rotation standing; a record strictly within 30 days of expiry
(`daysUntilExpiry < 30`) is classified purely by the expiry rules,
independently of the rotation fields; a record 30 or more days from expiry
falls through to the rotation-policy evaluation. -/
theorem c1_expiry_precedence (now e : ℚ) (secret : Secret) (s : String)
    (hexp : secret.expiresAt = some s) (hparse : jsParseDate s = some e) :
    (e < now → calculateStatus now secret = Status.expired) ∧
    (¬ e < now → ratCeil (qSub e now) < 30 →
      calculateStatus now secret =
        calculateStatus now
          { secret with rotationPolicy := none, lastRotated := none } ∧
      calculateStatus now secret =
        (if ratCeil (qSub e now) < 7 then Status.critical
         else Status.warning)) ∧
    (¬ e < now → ¬ ratCeil (qSub e now) < 30 →
      calculateStatus now secret =
        calculateStatus now { secret with expiresAt := none } ∧
      calculateStatus now secret = rotationStatus now secret) := by
  have hne : s ≠ "" := jsParseDate_ne_empty hparse
  have hmain := calculateStatus_parsed now e secret s hexp hparse
  have hstripped := calculateStatus_parsed now e
    { secret with rotationPolicy := none, lastRotated := none } s hexp hparse
  refine ⟨?_, ?_, ?_⟩
  · intro hlt
    rw [hmain, if_pos hlt]
  · intro hge hceil
    constructor
    · rw [hmain, hstripped]
      by_cases h7 : ratCeil (qSub e now) < 7 <;>
        simp [hge, h7, hceil]
    · rw [hmain, if_neg hge]
      by_cases h7 : ratCeil (qSub e now) < 7 <;> simp [h7, hceil]
  · intro hge hceil
    have h7 : ¬ ratCeil (qSub e now) < 7 :=
      fun h => hceil (h.trans (by norm_num))
    have hrot : calculateStatus now { secret with expiresAt := none } =
        rotationStatus now { secret with expiresAt := none } :=
      calculateStatus_noExpiry now _ rfl
    have hsame : rotationStatus now { secret with expiresAt := none } =
        rotationStatus now secret := rfl
    rw [hmain, if_neg hge, if_neg h7, if_neg hceil, hrot, hsame]
    exact ⟨rfl, rfl⟩

/-- Witness for C1 at `wExpiring` (expires day 20089, rotation breached):
past expiry at day 20100, inside the 30-day window at day 20060, outside
it at day 20000. -/
theorem c1_expiry_precedence_witness :
    calculateStatus 20100 wExpiring = Status.expired ∧
    calculateStatus 20060 wExpiring =
      (if ratCeil (qSub 20089 20060) < 7 then Status.critical
       else Status.warning) ∧
    calculateStatus 20000 wExpiring =
      calculateStatus 20000 { wExpiring with expiresAt := none } :=
  ⟨(c1_expiry_precedence 20100 20089 wExpiring "2025-01-01" rfl
      (by decide)).1 (by decide),
   ((c1_expiry_precedence 20060 20089 wExpiring "2025-01-01" rfl
      (by decide)).2.1 (by decide) (by decide)).2,
   ((c1_expiry_precedence 20000 20089 wExpiring "2025-01-01" rfl
      (by decide)).2.2 (by decide) (by decide)).1⟩

/-- C6: with `expiresAt` present and parsed, an expiry between 0 and 6
days away (inclusive) is `critical`; exactly 7 days away is not critical
but `warning`; between 7 and 29 days away is `warning`. -/
theorem c6_expiry_windows (now e : ℚ) (secret : Secret) (s : String)
    (hexp : secret.expiresAt = some s) (hparse : jsParseDate s = some e) :
    (0 ≤ qSub e now → qSub e now ≤ 6 →
      calculateStatus now secret = Status.critical) ∧
    (qSub e now = 7 → calculateStatus now secret = Status.warning) ∧
    (7 ≤ qSub e now → qSub e now ≤ 29 →
      calculateStatus now secret = Status.warning) := by
  have hmain := calculateStatus_parsed now e secret s hexp hparse
  rw [qSub_eq] at hmain ⊢
  refine ⟨?_, ?_, ?_⟩
  · intro h0 h6
    have hge : ¬ e < now := by intro h; linarith
    have h7 : ratCeil (e - now) < 7 := by
      rw [ratCeil_eq]
      exact_mod_cast lt_of_le_of_lt
        (Int.ceil_le.mpr (by exact_mod_cast h6)) (by norm_num)
    rw [hmain, if_neg hge, if_pos h7]
  · intro h7
    have hge : ¬ e < now := by
      intro h
      have : e - now = 7 := h7
      linarith
    have hc : ratCeil (e - now) = 7 := by
      rw [ratCeil_eq, h7]
      norm_num
    rw [hmain, if_neg hge, hc]
    norm_num
  · intro h7 h29
    have hge : ¬ e < now := by intro h; linarith
    have hlow : ¬ ratCeil (e - now) < 7 := by
      rw [ratCeil_eq, not_lt]
      exact le_trans h7 (Int.le_ceil _)
    have hhigh : ratCeil (e - now) < 30 := by
      rw [ratCeil_eq]
      exact_mod_cast lt_of_le_of_lt
        (Int.ceil_le.mpr (by exact_mod_cast h29)) (by norm_num)
    rw [hmain, if_neg hge, if_neg hlow, if_pos hhigh]

/-- Witness for C6 at `wExpiring` (expires day 20089): 6 days away at day
20083, exactly 7 at day 20082, 29 at day 20060. -/
theorem c6_expiry_windows_witness :
    calculateStatus 20083 wExpiring = Status.critical ∧
    calculateStatus 20082 wExpiring = Status.warning ∧
    calculateStatus 20060 wExpiring = Status.warning :=
  ⟨(c6_expiry_windows 20083 20089 wExpiring "2025-01-01" rfl
      (by decide)).1 (by decide) (by decide),
   (c6_expiry_windows 20082 20089 wExpiring "2025-01-01" rfl
      (by decide)).2.1 (by decide),
   (c6_expiry_windows 20060 20089 wExpiring "2025-01-01" rfl
      (by decide)).2.2 (by decide) (by decide)⟩

/-- The rotation evaluation on a record whose policy is the non-zero `q`
and whose `lastRotated` parses to `t`, as the source's decision chain. -/
theorem rotationStatus_eval (now t : ℚ) (secret : Secret) (s : String)
    (q : ℚ) (hpol : secret.rotationPolicy = some q) (hq : q ≠ 0)
    (hlr : secret.lastRotated = some s) (hparse : jsParseDate s = some t) :
    rotationStatus now secret =
      if q < ratCeil (qSub now t) then Status.critical
      else if qMul q (mkRat 3 4) < ratCeil (qSub now t) then Status.warning
      else Status.healthy := by
  have hne : s ≠ "" := jsParseDate_ne_empty hparse
  by_cases h1 : q < ratCeil (qSub now t) <;>
    by_cases h2 : qMul q (mkRat 3 4) < ratCeil (qSub now t) <;>
    simp [rotationStatus, hpol, hlr, truthyNum, truthyStr, hne, hq, jsDate,
      hparse, jsLt, jsSub, jsCeil, h1, h2]

/-- C2 counterexample: `wRotOnly` has `rotationPolicy` 90 and was rotated
on day 20089; at day 20179 — exactly 90 days later — the status is
`warning`, not `healthy` as claimed (90 days exceeds the 75% warning
threshold of 67.5 days). -/
theorem c2_rotation_boundary_cex :
    calculateStatus 20179 wRotOnly = Status.warning ∧
    ¬ calculateStatus 20179 wRotOnly = Status.healthy := by
  decide

/-- C2 (amended): for a record with no (truthy) expiry, an integer
rotation policy of `p ≥ 1` days and a parsed `lastRotated`, a rotation
exactly `p + 1` days ago is `critical`, and a rotation exactly `p` days
ago is *not* critical (the boundary is strict `>`) but `warning`, since
`p` days always exceeds the 75% warning threshold. -/
theorem c2_rotation_boundary (now t : ℚ) (secret : Secret) (s : String)
    (p : ℕ) (hp : 1 ≤ p)
    (hexp : truthyStr secret.expiresAt = false)
    (hpol : secret.rotationPolicy = some ((p : ℕ) : ℚ))
    (hlr : secret.lastRotated = some s)
    (hparse : jsParseDate s = some t) :
    (qSub now t = ((p + 1 : ℕ) : ℚ) →
      calculateStatus now secret = Status.critical) ∧
    (qSub now t = ((p : ℕ) : ℚ) →
      calculateStatus now secret = Status.warning) := by
  have hq : ((p : ℕ) : ℚ) ≠ 0 := by
    exact_mod_cast Nat.cast_ne_zero.mpr (by omega)
  have hbase := calculateStatus_noExpiry now secret hexp
  have hrot := rotationStatus_eval now t secret s _ hpol hq hlr hparse
  have hmul : qMul ((p : ℕ) : ℚ) (mkRat 3 4) = (p : ℚ) * (3 / 4) := by
    rw [qMul_eq, Rat.mkRat_eq_div]
    norm_num
  constructor
  · intro hd
    have hceil : ratCeil (qSub now t) = ((p + 1 : ℕ) : ℚ) := by
      rw [hd, ratCeil_eq, Int.ceil_natCast]
      push_cast
      ring
    rw [hbase, hrot, hceil, if_pos (by push_cast; linarith)]
  · intro hd
    have hceil : ratCeil (qSub now t) = ((p : ℕ) : ℚ) := by
      rw [hd, ratCeil_eq, Int.ceil_natCast]
      push_cast
      ring
    have h1 : ¬ ((p : ℕ) : ℚ) < ratCeil (qSub now t) := by
      rw [hceil]
      exact lt_irrefl _
    have h2 : qMul ((p : ℕ) : ℚ) (mkRat 3 4) < ratCeil (qSub now t) := by
      rw [hceil, hmul]
      have : (1 : ℚ) ≤ (p : ℚ) := by exact_mod_cast hp
      linarith
    rw [hbase, hrot, if_neg h1, if_pos h2]

/-- Witness for the amended C2 at `wRotOnly` (policy 90, rotated day
20089): day 20180 is 91 days later, day 20179 exactly 90. -/
theorem c2_rotation_boundary_witness :
    calculateStatus 20180 wRotOnly = Status.critical ∧
    calculateStatus 20179 wRotOnly = Status.warning :=
  ⟨(c2_rotation_boundary 20180 20089 wRotOnly "2025-01-01" 90 (by decide)
      rfl rfl rfl (by decide)).1 (by decide),
   (c2_rotation_boundary 20179 20089 wRotOnly "2025-01-01" 90 (by decide)
      rfl rfl rfl (by decide)).2 (by decide)⟩

/-- Applying `modifyFirst` with a name-preserving function leaves the name sequence
unchanged. -/
theorem modifyFirst_map_name (p : Secret → Bool) (f : Secret → Secret)
    (hf : ∀ s, (f s).name = s.name) :
    ∀ l : List Secret,
      (modifyFirst p f l).map Secret.name = l.map Secret.name := by
  intro l
  induction l with
  | nil => rfl
  | cons s rest ih =>
    by_cases hp : p s <;> simp [modifyFirst, hp, hf, ih]

/-- C3 counterexample: on a registry holding records named `A` and `B`,
`updateSecret "A" {name: "B"}` succeeds and leaves two records named `B`:
the merge performs no duplicate-name check. -/
theorem c3_unique_names_cex :
    ((updateSecret 20179 "A" wRenameToB wPairConfig).1.secrets.map
        Secret.name) = ["B", "B"] ∧
    ¬ ((updateSecret 20179 "A" wRenameToB wPairConfig).1.secrets.map
        Secret.name).Nodup := by
  decide

/-- C3 (amended): on a registry with pairwise-distinct names, `add`,
`remove` and `rotate` preserve distinctness, and `add` with a name already
present never succeeds; but `update` merges arbitrary fields with no
duplicate-name check, so renaming a record onto an existing name breaks
the invariant. -/
theorem c3_unique_names (today : String) (now : ℚ) (config : Config)
    (hnod : (config.secrets.map Secret.name).Nodup) :
    (∀ data : SecretData,
      ((addSecret today now config data).1.secrets.map Secret.name).Nodup) ∧
    (∀ name : String,
      ((removeSecret name config).1.secrets.map Secret.name).Nodup) ∧
    (∀ name : String,
      ((rotateSecret today now name config).1.secrets.map
        Secret.name).Nodup) ∧
    (∀ (data : SecretData) (nm : String), data.name = some nm →
      nm ∈ config.secrets.map Secret.name →
      ((addSecret today now config data).2).isOk = false) := by
  refine ⟨?_, ?_, ?_, ?_⟩
  · intro data
    by_cases h1 : config.tier = "free" ∧ 10 ≤ config.secrets.length
    · simp [addSecret, h1, hnod]
    · by_cases h2 : config.secrets.any (fun s => data.name == some s.name)
      · simp [addSecret, h1, h2, hnod]
      · by_cases h3 : truthyStr data.name
        · cases hv : validateDates data with
          | some e => simp [addSecret, h1, h2, h3, hv, hnod]
          | none =>
            obtain ⟨nm, hnm⟩ : ∃ nm, data.name = some nm := by
              cases hdn : data.name with
              | none =>
                rw [hdn] at h3
                simp [truthyStr] at h3
              | some nm => exact ⟨nm, rfl⟩
            simp only [addSecret, h1, h2, h3, hv, if_false, if_true,
              Bool.false_eq_true, not_false_eq_true, not_true_eq_false,
              ite_false, ite_true, List.map_append, List.map_cons,
              List.map_nil, List.nodup_append]
            refine ⟨hnod, List.nodup_singleton _, ?_⟩
            intro x hx hx'
            simp only [List.mem_singleton] at hx'
            obtain ⟨s, hs, hsx⟩ := List.mem_map.mp hx
            apply h2
            rw [List.any_eq_true]
            refine ⟨s, hs, ?_⟩
            have hxnm : x = nm := by
              rw [hx']
              simp [hnm]
            rw [hnm, hsx, hxnm]
            simp
        · simp [addSecret, h1, h2, h3, hnod]
  · intro name
    cases hv : config.secrets.find? (fun s => s.name == name) with
    | none => simp [removeSecret, hv, hnod]
    | some sec =>
      simp only [removeSecret, hv]
      exact hnod.sublist ((List.eraseP_sublist _).map _)
  · intro name
    cases hv : config.secrets.find? (fun s => s.name == name) with
    | none => simp [rotateSecret, hv, hnod]
    | some sec =>
      simp only [rotateSecret, hv]
      rw [modifyFirst_map_name (fun t => t.name == name)
        (fun t => refreshSecret now { t with lastRotated := some today })
        (fun s => rfl) config.secrets]
      exact hnod
  · intro data nm hdn hmem
    by_cases h1 : config.tier = "free" ∧ 10 ≤ config.secrets.length
    · simp [addSecret, h1, Except.isOk, Except.toBool]
    · by_cases h2 : config.secrets.any (fun s => data.name == some s.name)
      · simp [addSecret, h1, h2, Except.isOk, Except.toBool]
      · exfalso
        apply h2
        obtain ⟨s, hs, hsx⟩ := List.mem_map.mp hmem
        rw [List.any_eq_true]
        exact ⟨s, hs, by rw [hdn, hsx]; simp⟩

/-- C4: `calculateStatus` is insensitive to unparseable stored dates — a
record whose `expiresAt` (resp. `lastRotated`) does not parse is classified
exactly as if the field were absent, `createdAt` is never read at all, and
a record with an unparseable `expiresAt` is never classified `expired`. -/
theorem c4_total_graceful (now : ℚ) (secret : Secret) (s : String)
    (hbad : jsParseDate s = none) :
    (calculateStatus now { secret with expiresAt := some s } =
      calculateStatus now { secret with expiresAt := none }) ∧
    (calculateStatus now { secret with lastRotated := some s } =
      calculateStatus now { secret with lastRotated := none }) ∧
    (∀ c : Option String,
      calculateStatus now { secret with createdAt := c } =
        calculateStatus now secret) ∧
    calculateStatus now { secret with expiresAt := some s } ≠
      Status.expired := by
  have hexp : calculateStatus now { secret with expiresAt := some s } =
      rotationStatus now secret := by
    by_cases hs : s = ""
    · subst hs
      exact (calculateStatus_noExpiry now _ (by simp [truthyStr])).trans rfl
    · simp only [calculateStatus, truthyStr, hs, jsDate, hbad, jsLt, jsSub,
        jsCeil]
      simp [hs]
      rfl
  have hnone : calculateStatus now { secret with expiresAt := none } =
      rotationStatus now secret :=
    calculateStatus_noExpiry now _ rfl
  have hrot2 : rotationStatus now { secret with lastRotated := some s } =
      rotationStatus now { secret with lastRotated := none } := by
    by_cases hs : s = ""
    · subst hs
      simp [rotationStatus, truthyStr]
    · by_cases hp : truthyNum secret.rotationPolicy
      · simp [rotationStatus, truthyStr, hs, hp, jsDate, hbad, jsLt, jsSub,
          jsCeil]
      · simp [rotationStatus, truthyStr, hp]
  have hcongr : ∀ A B : Secret, A.expiresAt = B.expiresAt →
      rotationStatus now A = rotationStatus now B →
      calculateStatus now A = calculateStatus now B := by
    intro A B he hr
    unfold calculateStatus
    rw [he, hr]
  refine ⟨hexp.trans hnone.symm, hcongr _ _ rfl hrot2, fun c => rfl, ?_⟩
  rw [hexp]
  unfold rotationStatus
  dsimp only
  split_ifs <;> simp

/-- Witness for C4 at `wRotOnly` with the unparseable date `not-a-date`. -/
theorem c4_total_graceful_witness :
    calculateStatus 20179 { wRotOnly with expiresAt := some "not-a-date" } =
      calculateStatus 20179 { wRotOnly with expiresAt := none } ∧
    calculateStatus 20179 { wRotOnly with expiresAt := some "not-a-date" } ≠
      Status.expired :=
  have h := c4_total_graceful 20179 wRotOnly "not-a-date" (by decide)
  ⟨h.1, h.2.2.2⟩

/-- The free-tier size check is the first thing `addSecret` evaluates: on
a free registry at or over the cap it fails with the tier-limit error
before looking at the payload at all. -/
theorem addSecret_tierLimit (today : String) (now : ℚ) (config : Config)
    (data : SecretData) (h1 : config.tier = "free")
    (h2 : 10 ≤ config.secrets.length) :
    addSecret today now config data = (config, Except.error Err.tierLimit) := by
  simp [addSecret, h1, h2]

/-- C5: adding an 11th record to a full free-tier registry fails with the
tier-limit error and leaves the registry untouched; more generally every
failing `add` returns the registry exactly as it was. -/
theorem c5_tier_limit_atomic (today : String) (now : ℚ) (config : Config) :
    (config.tier = "free" → config.secrets.length = 10 →
      ∀ data : SecretData, addSecret today now config data =
        (config, Except.error Err.tierLimit)) ∧
    (∀ data : SecretData,
      ((addSecret today now config data).2).isOk = false →
      (addSecret today now config data).1 = config) := by
  constructor
  · intro h1 h2 data
    exact addSecret_tierLimit today now config data h1 (by omega)
  · intro data hfail
    by_cases h1 : config.tier = "free" ∧ 10 ≤ config.secrets.length
    · simp [addSecret, h1]
    · by_cases h2 : config.secrets.any (fun s => data.name == some s.name)
      · simp [addSecret, h1, h2]
      · by_cases h3 : truthyStr data.name
        · cases hv : validateDates data with
          | some e => simp [addSecret, h1, h2, h3, hv]
          | none =>
            exfalso
            simp [addSecret, h1, h2, h3, hv, Except.isOk,
              Except.toBool] at hfail
        · simp [addSecret, h1, h2, h3]

/-- Witness for C5 at the full free-tier registry `wFullConfig`. -/
theorem c5_tier_limit_atomic_witness :
    addSecret "2025-06-01" 20240 wFullConfig wPlainData =
      (wFullConfig, Except.error Err.tierLimit) ∧
    (addSecret "2025-06-01" 20240 wFullConfig wPlainData).1 = wFullConfig :=
  have h := c5_tier_limit_atomic "2025-06-01" 20240 wFullConfig
  ⟨h.1 rfl (by decide) wPlainData, h.2 wPlainData (by decide)⟩

/-- C10: on a free-tier registry at (or over) the cap, `add` fails with
the tier-limit error for *every* payload — duplicate names, missing names
or malformed dates are never the error surfaced in that state, because
the size check precedes all other validation. -/
theorem c10_tier_check_precedence (today : String) (now : ℚ)
    (config : Config) (h1 : config.tier = "free")
    (h2 : 10 ≤ config.secrets.length) :
    ∀ data : SecretData,
      (addSecret today now config data).2 = Except.error Err.tierLimit := by
  intro data
  rw [addSecret_tierLimit today now config data h1 h2]

/-- Witness for C10: the payload `wBadData` both collides with the stored
name `key-0` and carries a malformed date, yet the error is the tier
limit. -/
theorem c10_tier_check_precedence_witness :
    (addSecret "2025-06-01" 20240 wFullConfig wBadData).2 =
      Except.error Err.tierLimit :=
  c10_tier_check_precedence "2025-06-01" 20240 wFullConfig rfl
    (by decide) wBadData

/-- Witness for the amended C3 on the two-record registry `wPairConfig`. -/
theorem c3_unique_names_witness :
    ((addSecret "2025-06-01" 20240 wPairConfig wPlainData).1.secrets.map
      Secret.name).Nodup ∧
    ((removeSecret "A" wPairConfig).1.secrets.map Secret.name).Nodup ∧
    ((rotateSecret "2025-06-01" 20240 "A" wPairConfig).1.secrets.map
      Secret.name).Nodup ∧
    ((addSecret "2025-06-01" 20240 wPairConfig
      { wPlainData with name := some "A" }).2).isOk = false :=
  have h := c3_unique_names "2025-06-01" 20240 wPairConfig (by decide)
  ⟨h.1 wPlainData, h.2.1 "A", h.2.2.1 "A",
   h.2.2.2 { wPlainData with name := some "A" } "A" rfl (by decide)⟩

/-- C7 counterexample: on an empty free registry, `add` with
`rotationPolicy: -5` succeeds — there is no validation of the rotation
policy — and stores the negative policy unchanged. -/
theorem c7_rotation_policy_cex :
    ((addSecret "2025-06-01" 20240 wEmptyConfig wNegPolicyData).2).isOk =
      true ∧
    ((addSecret "2025-06-01" 20240 wEmptyConfig
        wNegPolicyData).1.secrets.map Secret.rotationPolicy) =
      [some (-5)] := by
  decide

/-- C7 (amended): `add` performs no validation of the supplied rotation
policy: changing the payload's `rotationPolicy` never changes whether the
call succeeds, and on success the stored policy is the supplied value
unchanged when it is truthy (a falsy `0` or absent value falls back to the
default 90). -/
theorem c7_no_policy_validation (today : String) (now : ℚ)
    (config : Config) (data : SecretData) (r : Option ℚ) :
    (((addSecret today now config
        { data with rotationPolicy := r }).2).isOk =
      ((addSecret today now config data).2).isOk) ∧
    (∀ (c : Config) (s : Secret),
      addSecret today now config data = (c, Except.ok s) →
      s.rotationPolicy = some (jsOrNum data.rotationPolicy 90)) := by
  constructor
  · by_cases h1 : config.tier = "free" ∧ 10 ≤ config.secrets.length
    · simp [addSecret, h1]
    · by_cases h2 : config.secrets.any (fun s => data.name == some s.name)
      · simp [addSecret, h1, h2]
      · by_cases h3 : truthyStr data.name
        · cases hv : validateDates data with
          | some e =>
            have hv' : validateDates { data with rotationPolicy := r } =
                some e := hv
            simp [addSecret, h1, h2, h3, hv, hv']
          | none =>
            have hv' : validateDates { data with rotationPolicy := r } =
                none := hv
            simp [addSecret, h1, h2, h3, hv, hv', Except.isOk,
              Except.toBool]
        · simp [addSecret, h1, h2, h3]
  · intro c s h
    by_cases h1 : config.tier = "free" ∧ 10 ≤ config.secrets.length
    · simp [addSecret, h1] at h
    · by_cases h2 : config.secrets.any (fun s => data.name == some s.name)
      · simp [addSecret, h1, h2] at h
      · by_cases h3 : truthyStr data.name
        · cases hv : validateDates data with
          | some e => simp [addSecret, h1, h2, h3, hv] at h
          | none =>
            simp [addSecret, h1, h2, h3, hv] at h
            rw [← h.2]
        · simp [addSecret, h1, h2, h3] at h

/-- Witness for the amended C7: a negative policy in the payload does not
change the success of the add, and the plain payload's stored policy is
the default 90. -/
theorem c7_no_policy_validation_witness :
    (((addSecret "2025-06-01" 20240 wEmptyConfig
        { wPlainData with rotationPolicy := some (-5) }).2).isOk =
      ((addSecret "2025-06-01" 20240 wEmptyConfig wPlainData).2).isOk) ∧
    wAddedSecret.rotationPolicy = some (jsOrNum wPlainData.rotationPolicy 90) :=
  have h := c7_no_policy_validation "2025-06-01" 20240 wEmptyConfig
    wPlainData (some (-5))
  ⟨h.1, h.2 { tier := "free", secrets := [wAddedSecret] } wAddedSecret
    (by rfl)⟩

/-- C9: at a fixed instant, refreshing the statuses is idempotent — a
second `list()` pass over an already refreshed registry changes nothing —
and `get()` returns the same classification whether or not a refresh
already happened, because the engine never reads the cached status. -/
theorem c9_idempotent_reads (now : ℚ) (config : Config) :
    refreshConfig now (refreshConfig now config) = refreshConfig now config ∧
    (∀ name : String, getSecret now name (refreshConfig now config) =
      getSecret now name config) := by
  have hff : ∀ s : Secret,
      refreshSecret now (refreshSecret now s) = refreshSecret now s :=
    fun s => rfl
  constructor
  · simp only [refreshConfig, listSecrets, List.map_map]
    have hcomp : (refreshSecret now) ∘ (refreshSecret now) =
        refreshSecret now := funext hff
    rw [hcomp]
  · intro name
    unfold getSecret refreshConfig listSecrets
    rw [List.find?_map]
    have hpf : ((fun s : Secret => s.name == name) ∘ (refreshSecret now)) =
        (fun s : Secret => s.name == name) := funext fun s => rfl
    rw [hpf]
    cases hv : config.secrets.find? (fun s : Secret => s.name == name) with
    | none => rfl
    | some s => exact congrArg Except.ok (hff s)

/-- C8: the Markdown line array contains an `## Action Required` heading
iff some record's status is not healthy, and in that case the report is
the fixed prefix block (which never contains that heading) followed by the
heading and exactly the per-record detail blocks — status, message,
provider, and notes when present — of the non-healthy records, in order. -/
theorem c8_action_required (genStr : String) (now : ℚ)
    (secrets : List Secret) :
    (("## Action Required" ∈ markdownLines genStr now secrets) ↔
      ∃ s ∈ secrets, s.status ≠ Status.healthy) ∧
    ((∃ s ∈ secrets, s.status ≠ Status.healthy) →
      markdownLines genStr now secrets =
        mdPrefixLines genStr now secrets ++
          (["## Action Required", ""] ++
            (secrets.filter (fun s => s.status != Status.healthy)).flatMap
              (mdDetailLines now)) ∧
      "## Action Required" ∉ mdPrefixLines genStr now secrets) := by
  have hguard := mdGuard_iff secrets
  have hnm := arHeadingAbsent genStr now secrets
  constructor
  · constructor
    · intro hmem
      by_cases hg : (countStatus Status.warning secrets > 0 ∨
          countStatus Status.critical secrets > 0 ∨
          countStatus Status.expired secrets > 0)
      · exact hguard.mp hg
      · rw [markdownLines, if_neg hg, List.append_nil] at hmem
        exact absurd hmem hnm
    · intro hex
      rw [markdownLines, if_pos (hguard.mpr hex)]
      simp [List.mem_append]
  · intro hex
    exact ⟨by rw [markdownLines, if_pos (hguard.mpr hex)], hnm⟩

/-- Witness for C8 on a one-record list holding a critical record. -/
theorem c8_action_required_witness :
    ("## Action Required" ∈
      markdownLines "now" 20179 [{ wRotOnly with status := Status.critical }]) ∧
    markdownLines "now" 20179 [{ wRotOnly with status := Status.critical }] =
      mdPrefixLines "now" 20179 [{ wRotOnly with status := Status.critical }] ++
        (["## Action Required", ""] ++
          ([{ wRotOnly with status := Status.critical }].filter
            (fun s => s.status != Status.healthy)).flatMap
            (mdDetailLines 20179)) :=
  have h := c8_action_required "now" 20179
    [{ wRotOnly with status := Status.critical }]
  have hex : ∃ s ∈ [{ wRotOnly with status := Status.critical }],
      s.status ≠ Status.healthy :=
    ⟨{ wRotOnly with status := Status.critical }, by simp, by decide⟩
  ⟨h.1.mpr hex, (h.2 hex).1⟩

end SecretsAudit
